import Mathlib

/-!
Shallow embedding of `src/server/src/server.rs` (hal9 gateway server).

The file embeds the request handlers (`ping`, `eval`, `pipeline`,
`pipeline_post`) and the observable startup behaviour of `start_server`.
External effects (the controller reply channel, the backend network call,
serde parsing, the filesystem) are passed in explicitly, so every handler
is a pure function from its inputs and effect outcomes to an outcome:
either an HTTP response or a panic raised by `.unwrap()` on a failed step.
-/

/-- Modelled from the spec: the ControlMessage tagged union. Its Rust
definition (`RtControllerMsg` in `crate::runtimes`) is not under `src/`;
the spec lists the variants, and `server.rs` uses `StartAll` and `GetUri`. -/
inductive RtControllerMsg where
  | StartAll
  | GetUri (name : String)
  | HeartbeatTimeout
  | FsChanged
  | ProcessExited (name : String)
  deriving DecidableEq

/-- Outcome of one handler invocation: an HTTP response (status, body), or a
panic caused by `.unwrap()` / indexing on a failed step inside the handler. -/
inductive HandlerOutcome where
  | response (status : Nat) (body : String)
  | panicked (msg : String)
  deriving DecidableEq

/-- Modelled from the spec: a Manifest (`crate::manifest`, not under `src/`)
is a runtime name plus an ordered sequence of opaque calls; each call is
kept as its raw JSON text, uninterpreted by the gateway. -/
structure Manifest where
  runtime : String
  calls : List String
  deriving DecidableEq

/-- Modelled from the spec: the body of a POST /eval request, an ordered
sequence of manifests. -/
structure Manifests where
  manifests : List Manifest
  deriving DecidableEq

/-- Modelled from the spec: RuntimeResponse is an opaque structured result
returned by a backend. We keep the parsed value abstract as a wrapper;
parsing and reserialization are effect parameters of `EvalEnv`. -/
structure RuntimeResponse where
  json : String
  deriving DecidableEq

/-- Embedding of `url::Url::join` for a plain relative segment such as
"eval": RFC 3986 merge drops everything after the last '/' of the base and
appends the segment. A serialized http `Url` always has a non-empty path
(at least "/"), so a '/' is present and the join cannot fail. -/
def urlJoin (base rel : String) : String :=
  String.mk ((base.toList.reverse.dropWhile (fun c => c ≠ '/')).reverse) ++ rel

/-- Effect outcomes seen by one run of the `eval` handler: whether
`tx_handler.send` succeeded, what `rx_uri_handler.recv()` delivered
(`none` = channel failure), the backend POST (`none` = network failure,
otherwise HTTP status and body — the status is never inspected by the
code), and serde parse/serialize for `RuntimeResponse`. -/
structure EvalEnv where
  sendOk : Bool
  recvd : Option String
  net : String → List String → Option (Nat × String)
  parseRR : String → Option RuntimeResponse
  printRR : RuntimeResponse → String

/-- Observable transcript of one `eval` handler run: the messages sent to
the controller, the backend POST issued (url and payload of calls), and
the handler outcome. -/
structure EvalTrace where
  sent : List RtControllerMsg
  posted : Option (String × List String)
  outcome : HandlerOutcome
  deriving DecidableEq

/-- Embedding of the `eval` handler (server.rs lines 50-77). It indexes
`manifests[0]` (panics on empty), sends `GetUri` for that manifest's
runtime, receives a uri from the shared reply channel, joins "eval", POSTs
the first manifest's calls to it, parses the reply as RuntimeResponse,
reserializes it, and answers 200. Every fallible step is `.unwrap()`:
failure is a panic, not an error response. -/
def eval (env : EvalEnv) (req : Manifests) : EvalTrace :=
  match req.manifests with
  | [] => ⟨[], none, .panicked "index out of bounds"⟩
  | m :: _ =>
    if env.sendOk then
      match env.recvd with
      | none => ⟨[.GetUri m.runtime], none, .panicked "recv on closed channel"⟩
      | some uri =>
        let evalUri := urlJoin uri "eval"
        match env.net evalUri m.calls with
        | none => ⟨[.GetUri m.runtime], some (evalUri, m.calls), .panicked "reqwest send error"⟩
        | some (_st, body) =>
          match env.parseRR body with
          | none => ⟨[.GetUri m.runtime], some (evalUri, m.calls), .panicked "json decode error"⟩
          | some rr =>
            ⟨[.GetUri m.runtime], some (evalUri, m.calls), .response 200 (env.printRR rr)⟩
    else ⟨[], none, .panicked "send on closed channel"⟩

/-- I/O error kinds relevant to the pipeline file handlers. -/
inductive IoError where
  | notFound
  | permissionDenied
  | other
  deriving DecidableEq

/-- Status actix-web assigns when an `std::io::Error` propagates out of a
handler via `?` (its ResponseError impl): NotFound becomes 404,
PermissionDenied 403, anything else 500. -/
def ioStatus : IoError → Nat
  | .notFound => 404
  | .permissionDenied => 403
  | .other => 500

/-- Embedding of the GET /pipeline handler (server.rs lines 79-84):
`Ok(NamedFile::open(app.json)?)` serves the file content as-is on success;
an open error propagates via `?` and is rendered as an error response with
`ioStatus`, never a panic. -/
def pipeline (readResult : Except IoError String) : HandlerOutcome :=
  match readResult with
  | .ok content => .response 200 content
  | .error e => .response (ioStatus e) ""

/-- Embedding of the POST /pipeline handler (server.rs lines 86-93), with
the outcomes of the two filesystem steps passed in. `File::create` is
`.unwrap()`ed: its failure panics the handler and leaves the file as it
was. On create success the file is truncated; `write!` has its Result
discarded by `.ok()`, so the handler answers 200 with body "{}" whether
the write succeeded (file now holds the request body verbatim) or failed
(file left truncated); the response never reflects the write's result. -/
def pipeline_post (fs : Option String) (createRes : Except IoError Unit)
    (writeRes : Except IoError Unit) (req : String) : HandlerOutcome × Option String :=
  match createRes with
  | .error _ => (.panicked "File::create unwrap", fs)
  | .ok _ =>
    match writeRes with
    | .ok _ => (.response 200 "\x7b\x7d", some req)
    | .error _ => (.response 200 "\x7b\x7d", some "")

/-- Reading the pipeline file immediately afterwards, with no intervening
write and a healthy disk: present content is returned, absence is a
NotFound I/O error. Links `pipeline_post`'s filesystem effect to
`pipeline`'s read result. -/
def readPipelineFile (fs : Option String) : Except IoError String :=
  match fs with
  | some content => .ok content
  | none => .error .notFound

/-- Events on the shared heartbeat cell (an `AtomicUsize`): handler `h`
atomically storing clock sample `t` (the `fetch_update` in `ping`, whose
closure ignores the previous value), or handler `h` atomically loading the
current value. Each event is one atomic step: `AtomicUsize` rules out torn
values by construction. -/
inductive HbEvent where
  | update (h : Nat) (t : Nat)
  | load (h : Nat)
  deriving DecidableEq

/-- Effect of one heartbeat event on the stored value. -/
def hbStep (s : Nat) : HbEvent → Nat
  | .update _ t => t
  | .load _ => s

/-- Value of the heartbeat cell after a list of events. -/
def hbAfter (s : Nat) (tr : List HbEvent) : Nat :=
  tr.foldl hbStep s

/-- Successive values of the heartbeat cell after each event of a trace
(the sequence of states an observer can see). -/
def hbTail (s : Nat) : List HbEvent → List Nat
  | [] => []
  | e :: es => hbStep s e :: hbTail (hbStep s e) es

/-- Clock samples written along a trace, in trace order. -/
def updateTimes : List HbEvent → List Nat
  | [] => []
  | .update _ t :: es => t :: updateTimes es
  | .load _ :: es => updateTimes es

/-- Embedding of the `ping` handler (server.rs lines 38-48) for handler
`h` whose `time_now()` sample is `t`: it stores `t` via `fetch_update`
(one atomic event), then — after the events `mid` that other handlers
interleave — does a separate `load` and returns that loaded value as the
plain-text body. Returns (loaded value, response body). -/
def ping (init h t : Nat) (mid : List HbEvent) : Nat × String :=
  let loaded := hbAfter init (HbEvent.update h t :: mid)
  (loaded, Nat.repr loaded)

/-- Modelled from the spec: the Controller (`crate::runtimes`, not under
`src/`) drains its queue strictly FIFO and emits exactly one reply per
`GetUri` request, in request order, on the single `tx_uri` channel created
in `start_server`. Requests are (handler id, runtime name). -/
def controllerReplies (resolve : String → String) (reqs : List (Nat × String)) : List String :=
  reqs.map fun r => resolve r.2

/-- Delivery semantics of the shared cloned reply channel (server.rs:
`rx_uri.clone()` is stored in every AppState and every `eval` handler
calls `recv()` on it): the i-th reply in channel order goes to whichever
handler performs the i-th `recv`, regardless of who asked. -/
def sharedRecv (replies : List String) (recvOrder : List Nat) (h : Nat) : Option String :=
  match recvOrder.findIdx? (· = h) with
  | some i => replies.get? i
  | none => none

/-- Reply that belongs to handler `h`: the one answering the request `h`
itself issued (replies are in request order). -/
def correlatedReply (reqs : List (Nat × String)) (replies : List String) (h : Nat) : Option String :=
  match (reqs.map Prod.fst).findIdx? (· = h) with
  | some i => replies.get? i
  | none => none

/-- Observable setup performed by `start_server` (server.rs lines 95-160)
before `HttpServer::run` starts accepting requests: the control messages
enqueued to the controller, in order, and the identities of the reply
channel ends. `(tx_uri, rx_uri) = bounded(0)` is one channel; the
controller replies on `tx_uri` and every handler's `rx_uri_handler` is
`rx_uri.clone()` — the same channel. -/
structure ServerSetup where
  declaredRuntimes : List String
  startupMsgs : List RtControllerMsg
  controllerReplyChan : Nat
  handlerReplyChan : Nat
  deriving DecidableEq

/-- Embedding of the startup path of `start_server`: regardless of the
runtimes the configuration declares, it sends `StartAll` then
`GetUri("r")` before the HTTP server is bound and run, and wires the one
bounded(0) uri channel both into the controller and (cloned) into every
AppState. -/
def start_server (runtimes : List String) : ServerSetup :=
  let uriChan : Nat := 0
  { declaredRuntimes := runtimes
    startupMsgs := [RtControllerMsg.StartAll, RtControllerMsg.GetUri "r"]
    controllerReplyChan := uriChan
    handlerReplyChan := uriChan }

lemma hbTail_chain (tr : List HbEvent) (init : Nat)
    (h : List.Chain (· ≤ ·) init (updateTimes tr)) :
    List.Chain (· ≤ ·) init (hbTail init tr) := by
  induction tr generalizing init with
  | nil => exact List.Chain.nil
  | cons e es ih =>
    cases e with
    | update hid t =>
      rw [updateTimes, List.chain_cons] at h
      exact List.chain_cons.mpr ⟨h.1, ih t h.2⟩
    | load hid =>
      rw [updateTimes] at h
      exact List.chain_cons.mpr ⟨le_refl init, ih init h⟩

lemma hbTail_mem (tr : List HbEvent) (init v : Nat)
    (h : v ∈ hbTail init tr) : v = init ∨ v ∈ updateTimes tr := by
  induction tr generalizing init with
  | nil => simp [hbTail] at h
  | cons e es ih =>
    cases e with
    | update hid t =>
      rw [hbTail, hbStep] at h
      rcases List.mem_cons.mp h with h1 | h2
      · exact Or.inr (by rw [updateTimes]; exact List.mem_cons.mpr (Or.inl h1))
      · rcases ih t h2 with h3 | h4
        · exact Or.inr (by rw [updateTimes, h3]; exact List.mem_cons.mpr (Or.inl rfl))
        · exact Or.inr (by rw [updateTimes]; exact List.mem_cons.mpr (Or.inr h4))
    | load hid =>
      rw [hbTail, hbStep] at h
      rcases List.mem_cons.mp h with h1 | h2
      · exact Or.inl h1
      · rw [updateTimes]; exact ih init h2

lemma hbAfter_no_update (mid : List HbEvent) (s : Nat)
    (h : updateTimes mid = []) : hbAfter s mid = s := by
  induction mid generalizing s with
  | nil => rfl
  | cons e es ih =>
    cases e with
    | update hid t => simp [updateTimes] at h
    | load hid =>
      rw [updateTimes] at h
      show hbAfter (hbStep s (HbEvent.load hid)) es = s
      rw [hbStep]
      exact ih s h

/-- Claim C1: the spec requires every evaluation failure (unavailable
runtime, network failure, malformed reply) to produce a reported error
response; the code instead `.unwrap()`s each step, so the handler panics
and the caller gets no error response. Evaluated at the failing inputs:
backend network failure, malformed backend reply, and a failed receive on
the reply channel. -/
theorem C1_eval_failure_panics :
    (eval { sendOk := true, recvd := some "http://127.0.0.1:8001/",
            net := fun _ _ => none,
            parseRR := fun s => some ⟨s⟩, printRR := fun r => r.json }
        ⟨[⟨"r", ["c"]⟩]⟩).outcome = HandlerOutcome.panicked "reqwest send error"
    ∧ (eval { sendOk := true, recvd := some "http://127.0.0.1:8001/",
                net := fun _ _ => some (200, "not json"),
                parseRR := fun _ => none, printRR := fun r => r.json }
        ⟨[⟨"r", ["c"]⟩]⟩).outcome = HandlerOutcome.panicked "json decode error"
    ∧ (eval { sendOk := true, recvd := none,
                net := fun _ _ => none,
                parseRR := fun _ => none, printRR := fun r => r.json }
        ⟨[⟨"r", ["c"]⟩]⟩).outcome = HandlerOutcome.panicked "recv on closed channel" :=
  ⟨rfl, rfl, rfl⟩

/-- Claim C2: with the shared cloned reply channel, two concurrent
handlers (0 requesting runtime "a", 1 requesting "b") whose receives
happen in the order [1, 0] give handler 1 the reply to handler 0's
request ("http://a/"), not its own ("http://b/"): delivery is not
correlated to the requester. -/
theorem C2_shared_channel_misdelivery :
    sharedRecv
        (controllerReplies (fun s => if s = "a" then "http://a/" else "http://b/")
          [(0, "a"), (1, "b")]) [1, 0] 1 = some "http://a/"
    ∧ correlatedReply [(0, "a"), (1, "b")]
        (controllerReplies (fun s => if s = "a" then "http://a/" else "http://b/")
          [(0, "a"), (1, "b")]) 1 = some "http://b/"
    ∧ ("http://a/" : String) ≠ "http://b/" :=
  ⟨rfl, rfl, by decide⟩

/-- Claim C3: on a non-empty manifests list, `eval` sends exactly one
GetUri for the first manifest's runtime, POSTs that manifest's calls to
the resolved endpoint joined with "eval", and on a parseable reply answers
200 with the reserialized RuntimeResponse; the result coincides with
evaluating the first manifest alone, so all later manifests are ignored. -/
theorem C3_eval_first_manifest (env : EvalEnv) (m : Manifest) (rest : List Manifest)
    (uri : String) (st : Nat) (body : String) (rr : RuntimeResponse)
    (hsend : env.sendOk = true)
    (hrecv : env.recvd = some uri)
    (hnet : env.net (urlJoin uri "eval") m.calls = some (st, body))
    (hparse : env.parseRR body = some rr) :
    eval env ⟨m :: rest⟩ =
      ⟨[RtControllerMsg.GetUri m.runtime], some (urlJoin uri "eval", m.calls),
        HandlerOutcome.response 200 (env.printRR rr)⟩
    ∧ eval env ⟨m :: rest⟩ = eval env ⟨[m]⟩ := by
  constructor
  · simp [eval, hsend, hrecv, hnet, hparse]
  · simp [eval, hsend, hrecv, hnet, hparse]

/-- Claim C3 witness: a concrete happy-path evaluation with a second
manifest present and ignored. -/
theorem C3_eval_first_manifest_witness :
    ({ sendOk := true, recvd := some "http://127.0.0.1:8001/",
       net := fun u c => if u = "http://127.0.0.1:8001/eval" ∧ c = ["c1"]
         then some (200, "reply") else none,
       parseRR := fun s => some ⟨s⟩, printRR := fun r => r.json } : EvalEnv).sendOk = true
    ∧ eval { sendOk := true, recvd := some "http://127.0.0.1:8001/",
               net := fun u c => if u = "http://127.0.0.1:8001/eval" ∧ c = ["c1"]
                 then some (200, "reply") else none,
               parseRR := fun s => some ⟨s⟩, printRR := fun r => r.json }
        ⟨[⟨"r", ["c1"]⟩, ⟨"python", ["c2"]⟩]⟩ =
      ⟨[RtControllerMsg.GetUri "r"], some ("http://127.0.0.1:8001/eval", ["c1"]),
        HandlerOutcome.response 200 "reply"⟩ := by
  refine ⟨rfl, ?_⟩
  exact (C3_eval_first_manifest _ ⟨"r", ["c1"]⟩ [⟨"python", ["c2"]⟩]
    "http://127.0.0.1:8001/" 200 "reply" ⟨"reply"⟩ rfl rfl (by decide) rfl).1

/-- Claim C4: along any interleaving of atomic heartbeat events whose
clock samples are non-decreasing (time_now, from `crate::util` which is
not under `src/`, is modelled from the spec as the current time, a
monotone clock; `fetch_update` resamples on every CAS retry, so samples of
successive successful updates are in real-time order), the successive
values of the shared cell form a non-decreasing chain — no observer ever
sees a regression — and every value the cell ever holds is the initial
value or one actually written by some update, so loads, which return the
current whole value, never observe a torn value. -/
theorem C4_heartbeat_monotone (init : Nat) (tr : List HbEvent)
    (hmono : List.Chain (· ≤ ·) init (updateTimes tr)) :
    List.Chain (· ≤ ·) init (hbTail init tr)
    ∧ ∀ v ∈ hbTail init tr, v = init ∨ v ∈ updateTimes tr :=
  ⟨hbTail_chain tr init hmono, fun v hv => hbTail_mem tr init v hv⟩

/-- Claim C4 witness: a concrete three-event trace of two ping handlers
with monotone clock samples. -/
theorem C4_heartbeat_monotone_witness :
    List.Chain (· ≤ ·) 2
      (updateTimes [HbEvent.update 0 3, HbEvent.load 1, HbEvent.update 1 5])
    ∧ (List.Chain (· ≤ ·) 2
        (hbTail 2 [HbEvent.update 0 3, HbEvent.load 1, HbEvent.update 1 5])
      ∧ ∀ v ∈ hbTail 2 [HbEvent.update 0 3, HbEvent.load 1, HbEvent.update 1 5],
          v = 2 ∨ v ∈ updateTimes [HbEvent.update 0 3, HbEvent.load 1, HbEvent.update 1 5]) := by
  have hch : List.Chain (· ≤ ·) 2
      (updateTimes [HbEvent.update 0 3, HbEvent.load 1, HbEvent.update 1 5]) := by
    show List.Chain (· ≤ ·) 2 [3, 5]
    exact List.Chain.cons (by norm_num) (List.Chain.cons (by norm_num) List.Chain.nil)
  exact ⟨hch,
    C4_heartbeat_monotone 2 [HbEvent.update 0 3, HbEvent.load 1, HbEvent.update 1 5] hch⟩

/-- Claim C5: when the POST /pipeline write completes successfully, an
immediately following GET /pipeline with no intervening write returns
exactly the bytes that were written. -/
theorem C5_pipeline_roundtrip (fs : Option String) (req : String) :
    (pipeline_post fs (Except.ok ()) (Except.ok ()) req).1 = HandlerOutcome.response 200 "\x7b\x7d"
    ∧ pipeline (readPipelineFile (pipeline_post fs (Except.ok ()) (Except.ok ()) req).2)
      = HandlerOutcome.response 200 req :=
  ⟨rfl, rfl⟩

/-- Claim C6 counterexample: ping handler 0 stores clock sample 5, handler
1 stores 7 between handler 0's `fetch_update` and its separate relaxed
`load`, so handler 0's response body is "7" — not "5", the value it
stored. The claim that the handler returns the value it stored is false. -/
theorem C6_counterexample :
    (ping 0 0 5 [HbEvent.update 1 7]).2 = Nat.repr 7
    ∧ (ping 0 0 5 [HbEvent.update 1 7]).2 ≠ Nat.repr 5 :=
  ⟨rfl, by decide⟩

/-- Claim C6 as amended: the handler atomically stores the current time,
then re-reads the shared cell and returns that re-read value as plain
text; whenever no other handler's update intervenes between its store and
its read, the returned value is exactly the timestamp it stored. -/
theorem C6_ping_returns_reread (init h t : Nat) (mid : List HbEvent)
    (hnowrite : updateTimes mid = []) :
    ping init h t mid = (t, Nat.repr t) := by
  have key : hbAfter init (HbEvent.update h t :: mid) = t := by
    show hbAfter t mid = t
    exact hbAfter_no_update mid t hnowrite
  simp [ping, key]

/-- Claim C6 amended witness: a lone ping whose interleaved events contain
only a load by another handler. -/
theorem C6_ping_returns_reread_witness :
    updateTimes [HbEvent.load 1] = []
    ∧ ping 0 2 5 [HbEvent.load 1] = (5, Nat.repr 5) :=
  ⟨rfl, C6_ping_returns_reread 0 2 5 [HbEvent.load 1] rfl⟩

/-- Claim C7: the spec requires a write failure to surface as a server
error and never as a crash; the code `.unwrap()`s `File::create` — a
create failure (e.g. permission denied) panics the handler — and discards
the `write!` result with `.ok()` — a write failure still yields a 200
success response, not a server error. -/
theorem C7_pipeline_post_failure_handling :
    (pipeline_post (some "old") (Except.error IoError.permissionDenied) (Except.ok ()) "body").1
      = HandlerOutcome.panicked "File::create unwrap"
    ∧ (pipeline_post (some "old") (Except.ok ()) (Except.error IoError.other) "body").1
      = HandlerOutcome.response 200 "\x7b\x7d" :=
  ⟨rfl, rfl⟩

/-- Claim C8: GET /pipeline returns the persisted file content unmodified
when the read succeeds, and a missing file yields a 404 not-found response
— an error response, not a panic, since the open error propagates with
`?`. -/
theorem C8_pipeline_get (c : String) :
    pipeline (Except.ok c) = HandlerOutcome.response 200 c
    ∧ pipeline (Except.error IoError.notFound) = HandlerOutcome.response 404 "" :=
  ⟨rfl, rfl⟩

/-- Claim C9: once `File::create` succeeds, POST /pipeline answers 200
with body "{}" whatever the outcome of the subsequent write: the write's
Result is discarded by `.ok()` and never influences the response. -/
theorem C9_post_discards_write_error (fs : Option String) (w : Except IoError Unit)
    (req : String) :
    (pipeline_post fs (Except.ok ()) w req).1 = HandlerOutcome.response 200 "\x7b\x7d" := by
  cases w <;> rfl

/-- Claim C10: on every startup, whatever runtimes the configuration
declares, `start_server` enqueues StartAll then GetUri("r"), in that
order, before the HTTP server runs, and the reply channel wired into every
handler's AppState is the very channel the controller replies on. -/
theorem C10_startup_sequence (r1 r2 : List String) :
    (start_server r1).startupMsgs = [RtControllerMsg.StartAll, RtControllerMsg.GetUri "r"]
    ∧ (start_server r1).startupMsgs = (start_server r2).startupMsgs
    ∧ (start_server r1).handlerReplyChan = (start_server r1).controllerReplyChan :=
  ⟨rfl, rfl, rfl⟩
